import Mathlib

/-!
Verification development for the `shimmerr` sky-model parser
(`src/beam_errors/sources.py`).

The Python module is shallowly embedded here:
* Python strings are `List Char` (helpers convert from Lean `String`
  literals); `str.strip(chars)`, `str.split(sep)`, `str.replace`,
  `str.lower` are modelled by structurally recursive list functions.
* Python floats are modelled as exact numbers: the values parsed from
  the catalog text are `ℚ`, and the brightness models are functions over
  `ℝ` (with `Real.logb 10` for `np.log10` and real exponentiation for
  `**`).
* `float(s)` / `int(s)` are modelled by `parseFloat?` / `parseInt?`,
  covering the decimal / scientific-notation literal grammar (sign,
  digits, optional fraction, optional exponent, surrounding whitespace);
  `inf` / `nan` / underscore separators are not modelled — no catalog
  field in scope uses them.
* Exceptions are modelled with `Except PyError`; `PyError` distinguishes
  `KeyError`, `IndexError`, `TypeError` and `ValueError` where the
  distinction is load-bearing (`get_item` catches only `IndexError`, the
  `logSI` lookup catches only `KeyError`).  Inside the coordinate
  parsers the several possible exception kinds are conflated into
  `valueError` carrying the offending text, since nothing downstream
  branches on them.
* Lines fed to `skymodel` are the file's lines with their trailing
  newline removed.  (The code passes the header to `parse_formatstring`
  with its newline; a trailing `'\n'` changes neither the substring
  matching nor the digit filter for the default reference frequency, so
  the model drops it uniformly.)
-/

namespace Shimmerr

/-- Convert a Lean string literal to the `List Char` representation of
Python strings used throughout this development. -/
def toL (s : String) : List Char := s.toList

/-- Python exception kinds observable from `sources.py`. -/
inductive PyError : Type where
  | keyError : List Char → PyError
  | indexError : PyError
  | typeError : PyError
  | valueError : List Char → PyError
deriving DecidableEq, Repr

/-- A value of the `Skymodel.items` dictionary: every canonical field
name is mapped to an `int` column index, except
`default_referencefrequency`, which the code maps to the parsed `float`
default itself. -/
inductive ItemVal : Type where
  | idx : ℕ → ItemVal
  | val : ℚ → ItemVal
deriving DecidableEq, Repr

/-- Python `str.split(sep)` for a one-character separator:
`"".split(",") == [""]`, empty chunks are kept. -/
def splitOnChar (sep : Char) : List Char → List (List Char)
  | [] => [[]]
  | a :: r =>
    if a = sep then [] :: splitOnChar sep r
    else
      match splitOnChar sep r with
      | [] => [[a]]
      | h :: t => (a :: h) :: t

/-- Python `sep.join(chunks)` for a one-character separator. -/
def joinChar (sep : Char) : List (List Char) → List Char
  | [] => []
  | [x] => x
  | x :: y :: r => x ++ sep :: joinChar sep (y :: r)

/-- Python `str.strip(chars)`: remove the characters of `cs` from both
ends. -/
def stripChars (cs : List Char) (l : List Char) : List Char :=
  ((l.dropWhile (fun c => cs.contains c)).reverse.dropWhile
    (fun c => cs.contains c)).reverse

/-- Python `str.strip()` (no argument): remove whitespace from both
ends, as done by `float(...)` / `int(...)` before parsing. -/
def trimWs (l : List Char) : List Char :=
  ((l.dropWhile Char.isWhitespace).reverse.dropWhile Char.isWhitespace).reverse

/-- Numeric value of a digit string (most significant digit first). -/
def digitsVal (l : List Char) : ℕ :=
  l.foldl (fun a c => 10 * a + (c.toNat - 48)) 0

/-- Split an optional leading sign off a literal, returning the sign as
`1` or `-1`. -/
def splitSign (l : List Char) : ℤ × List Char :=
  match l with
  | '-' :: r => (-1, r)
  | '+' :: r => (1, r)
  | r => (1, r)

/-- Parse the optional exponent tail of a float literal (`e`/`E`,
optional sign, at least one digit, nothing after it). An empty tail
means exponent `0`. -/
def parseExp? : List Char → Option ℤ
  | [] => some 0
  | e :: rest =>
    if e = 'e' ∨ e = 'E' then
      let (sg, ds) := splitSign rest
      if ds.isEmpty then none
      else if ds.all Char.isDigit then some (sg * (digitsVal ds : ℤ))
      else none
    else none

/-- Core of `float(s)` after whitespace removal: optional sign, digits
with an optional fractional part (at least one digit overall), optional
exponent. -/
def parseFloatCore (l : List Char) : Option ℚ :=
  let (sg, l1) := splitSign l
  let ip := l1.takeWhile Char.isDigit
  let r1 := l1.dropWhile Char.isDigit
  match r1 with
  | '.' :: r2 =>
    let fp := r2.takeWhile Char.isDigit
    let r3 := r2.dropWhile Char.isDigit
    if ip.isEmpty && fp.isEmpty then none
    else
      match parseExp? r3 with
      | none => none
      | some e =>
        some ((sg : ℚ) * (digitsVal (ip ++ fp) : ℚ) *
          (10 : ℚ) ^ (e - (fp.length : ℤ)))
  | r3 =>
    if ip.isEmpty then none
    else
      match parseExp? r3 with
      | none => none
      | some e => some ((sg : ℚ) * (digitsVal ip : ℚ) * (10 : ℚ) ^ e)

/-- Python `float(s)`: `none` models a raised `ValueError`. -/
def parseFloat? (l : List Char) : Option ℚ :=
  match trimWs l with
  | [] => none
  | l1 => parseFloatCore l1

/-- Python `int(s)`: optional sign and at least one digit; `none`
models a raised `ValueError`. -/
def parseInt? (l : List Char) : Option ℤ :=
  match trimWs l with
  | [] => none
  | l1 =>
    let (sg, ds) := splitSign l1
    if ds.isEmpty then none
    else if ds.all Char.isDigit then some (sg * (digitsVal ds : ℤ))
    else none

instance exceptDecEq {ε α : Type} [DecidableEq ε] [DecidableEq α] :
    DecidableEq (Except ε α) := fun x y =>
  match x, y with
  | .error a, .error b =>
    if h : a = b then .isTrue (by rw [h]) else
      .isFalse (fun hc => by cases hc; exact h rfl)
  | .error _, .ok _ => .isFalse (fun hc => by cases hc)
  | .ok _, .error _ => .isFalse (fun hc => by cases hc)
  | .ok a, .ok b =>
    if h : a = b then .isTrue (by rw [h]) else
      .isFalse (fun hc => by cases hc; exact h rfl)

/-! ### Coordinate parser (`Source.parse_right_ascension` / `Source.parse_declination`) -/

/-- `Source.parse_right_ascension` (sources.py lines 25–35): strip
spaces, split on `:` into exactly three fields, take the sign from a
leading `-` on the hours field, and return
`sign * (|hours| * 15 + minutes / 4 + seconds / 240)`.
`none` models any of the exceptions Python raises on malformed input
(unpacking, `int(...)` / `float(...)` failures, `HA[0]` on an empty
hours field). -/
def parse_right_ascension (l : List Char) : Option ℚ :=
  match splitOnChar ':' (stripChars [' '] l) with
  | [ha, mn, sec] =>
    match ha with
    | [] => none
    | c0 :: _ =>
      let sign : ℚ := if c0 = '-' then -1 else 1
      match parseInt? ha with
      | none => none
      | some h =>
        match parseInt? mn with
        | none => none
        | some m =>
          match parseFloat? sec with
          | none => none
          | some sc =>
            some (sign * ((h.natAbs : ℚ) * 15 + (m : ℚ) / 4 + sc / 240))
  | _ => none

/-- `Source.parse_declination` (sources.py lines 37–46): remove all
spaces, strip `+` from both ends, split on `.`; the first field is the
integer degrees, the second the integer minutes, the remaining fields
re-joined with `.` are the float seconds.  The result is
`np.sign(deg) * (|deg| + min / 60 + sec / 3600)` — note `np.sign 0 = 0`.
`none` models the exceptions Python raises on malformed input. -/
def parse_declination (l : List Char) : Option ℚ :=
  match splitOnChar '.' (stripChars ['+'] (l.filter (fun c => c != ' '))) with
  | f0 :: f1 :: rest =>
    match parseInt? f0 with
    | none => none
    | some deg =>
      match parseInt? f1 with
      | none => none
      | some mn =>
        match parseFloat? (joinChar '.' rest) with
        | none => none
        | some sc =>
          some ((Int.sign deg : ℚ) * ((deg.natAbs : ℚ) + (mn : ℚ) / 60 + sc / 3600))
  | _ => none

/-! ### Brightness models (`Source.logarithmic_spectral_index_brightness`,
`Source.linear_spectral_index_brightness`)

Both Python methods receive the spectral index as the raw text of the
catalog field and parse it *at call time*:
`spectral_index.strip("[]").split(",")` followed by `float(c)` on each
chunk inside the summation.  A `none` result models the `ValueError`
raised during that conversion. -/

/-- `spectral_index.strip("[]").split(",")` with `float` applied to each
chunk; `none` as soon as one chunk is not a float literal (the empty
string `""` yields the single unparsable chunk `[""]`). -/
def floatList? : List (List Char) → Option (List ℚ)
  | [] => some []
  | s :: r =>
    match parseFloat? s with
    | none => none
    | some q =>
      match floatList? r with
      | none => none
      | some qs => some (q :: qs)

/-- The coefficient list extracted from the spectral-index text. -/
def parseCoeffList (si : List Char) : Option (List ℚ) :=
  floatList? (splitOnChar ',' (stripChars ['[', ']'] si))

/-- `sum(float(c) * base ** i for i, c in enumerate(coeffs))`, with the
enumeration starting at `i`. -/
noncomputable def powSeries : ℕ → List ℚ → ℝ → ℝ
  | _, [], _ => 0
  | i, c :: cs, base => (c : ℝ) * base ^ i + powSeries (i + 1) cs base

/-- `Source.logarithmic_spectral_index_brightness` (sources.py lines
48–57): with `x = frequency / reference_frequency`, returns
`brightness * x ** (Σ_i coeff[i] * log10(x) ** i)`.  `np.log10` is
`Real.logb 10`; the outer `**` with real exponent is `Real.rpow`
(Mathlib's `^` on `ℝ → ℝ`). -/
noncomputable def logarithmic_spectral_index_brightness
    (brightness reference_frequency : ℚ) (spectral_index : List Char)
    (frequency : ℝ) : Option ℝ :=
  match parseCoeffList spectral_index with
  | none => none
  | some cs =>
    some ((brightness : ℝ) *
      (frequency / (reference_frequency : ℝ)) ^
        powSeries 0 cs (Real.logb 10 (frequency / (reference_frequency : ℝ))))

/-- `Source.linear_spectral_index_brightness` (sources.py lines 59–66):
with `x = frequency / reference_frequency - 1`, returns
`brightness + Σ_i coeff[i] * x ** i`. -/
noncomputable def linear_spectral_index_brightness
    (brightness reference_frequency : ℚ) (spectral_index : List Char)
    (frequency : ℝ) : Option ℝ :=
  match parseCoeffList spectral_index with
  | none => none
  | some cs =>
    some ((brightness : ℝ) +
      powSeries 0 cs (frequency / (reference_frequency : ℝ) - 1))

/-! ### Data model (`Source`, `Patch`, `Skymodel`) -/

/-- A constructed `Source`: `Source.__init__` eagerly parses the two
coordinate strings and stores the remaining arguments unchanged inside
the brightness closure (the spectral-index *text* is kept raw and only
parsed when the closure is called). -/
structure SourceR : Type where
  ra : ℚ
  dec : ℚ
  brightness : ℚ
  reference_frequency : ℚ
  spectral_index : List Char
  logSI : Bool
deriving DecidableEq, Repr

/-- A `Patch`: its own parsed coordinates plus the `source name ↦
Source` dictionary (association list in insertion order, matching a
Python dict). -/
structure PatchR : Type where
  ra : ℚ
  dec : ℚ
  elements : List (List Char × SourceR)
deriving DecidableEq, Repr

/-- The `Skymodel.elements` dictionary: `patch name ↦ Patch`. -/
abbrev Catalog := List (List Char × PatchR)

/-- The `Skymodel.items` dictionary. -/
abbrev Items := List (List Char × ItemVal)

/-- Python dict lookup on an association list. -/
def alookup {α : Type} : List (List Char × α) → List Char → Option α
  | [], _ => none
  | (k, v) :: r, key => if k = key then some v else alookup r key

/-- Python dict assignment `d[key] = v` on an association list: update
in place if the key exists, append otherwise. -/
def aset {α : Type} : List (List Char × α) → List Char → α → List (List Char × α)
  | [], key, v => [(key, v)]
  | (k, w) :: r, key, v =>
    if k = key then (k, v) :: r else (k, w) :: aset r key v

/-- `Source.__init__` via `Patch.add_source`: parse the two coordinate
strings (failures conflated into `valueError` carrying the offending
text) and store everything else raw. -/
def mkSource (raS decS : List Char) (b rf : ℚ) (si : List Char) (lg : Bool) :
    Except PyError SourceR :=
  match parse_right_ascension raS with
  | none => .error (.valueError raS)
  | some raq =>
    match parse_declination decS with
    | none => .error (.valueError decS)
    | some decq => .ok ⟨raq, decq, b, rf, si, lg⟩

/-! ### Header parsing (`Skymodel.parse_formatstring`) -/

/-- `b` starts with `a` (plain structural prefix test on char lists). -/
def beginsWith : List Char → List Char → Bool
  | [], _ => true
  | _ :: _, [] => false
  | a :: as, b :: bs => a = b && beginsWith as bs

/-- Python substring containment `needle in hay`. -/
def hasSub (needle : List Char) : List Char → Bool
  | [] => beginsWith needle []
  | l@(_ :: rest) => beginsWith needle l || hasSub needle rest

/-- `fields.index(x)`: position of the first occurrence of `x`. -/
def idxOfL (x : List Char) : List (List Char) → ℕ
  | [] => 0
  | a :: r => if a = x then 0 else idxOfL x r + 1

/-- The `list_of_itemnames` of `Skymodel.parse_formatstring` (sources.py
lines 162–171), in source order. -/
def list_of_itemnames : List (List Char) :=
  [toL "name", toL "patch", toL "ra", toL "dec", toL "i",
   toL "referencefrequency", toL "spectralindex", toL "logarithmicsi"]

/-- The required canonical fields: the two trailing optional names of
`list_of_itemnames` are skipped on a missing match instead of raising. -/
def requiredItemnames : List (List Char) :=
  [toL "name", toL "patch", toL "ra", toL "dec", toL "i",
   toL "referencefrequency"]

/-- Header normalisation (sources.py lines 173–176): lowercase, remove
all spaces, split on `,`. -/
def headerFields (line : List Char) : List (List Char) :=
  splitOnChar ',' ((line.map Char.toLower).filter (fun c => c != ' '))

/-- One iteration of the header loop (sources.py lines 180–201) for one
canonical `itemname`: find the first header cell containing it as a
substring; if none, skip the two optional names and raise `KeyError`
otherwise; else record the cell's index.  For `referencefrequency`,
additionally split the matched cell on `=` into exactly two parts
(`ValueError` otherwise), keep only digits, `e` and `-` of the second
part, parse it as float (`ValueError` on failure) and store the result
under `default_referencefrequency` — as the *value* of the items
dictionary, not an index. -/
def headerStep (fields : List (List Char)) (items : Items)
    (itemname : List Char) : Except PyError Items :=
  match (fields.filter (fun f => hasSub itemname f)).head? with
  | none =>
    if itemname = toL "spectralindex" ∨ itemname = toL "logarithmicsi" then
      .ok items
    else .error (.keyError itemname)
  | some matching =>
    let items1 := items ++ [(itemname, ItemVal.idx (idxOfL matching fields))]
    if itemname = toL "referencefrequency" then
      match splitOnChar '=' matching with
      | [_, dref] =>
        let filtered := dref.filter (fun c => c.isDigit || c = 'e' || c = '-')
        match parseFloat? filtered with
        | none => .error (.valueError filtered)
        | some q =>
          .ok (items1 ++ [(toL "default_referencefrequency", ItemVal.val q)])
      | _ => .error (.valueError matching)
    else .ok items1

/-- The header loop over `list_of_itemnames`. -/
def headerLoop (fields : List (List Char)) :
    Items → List (List Char) → Except PyError Items
  | items, [] => .ok items
  | items, itemname :: rest =>
    match headerStep fields items itemname with
    | .error e => .error e
    | .ok items1 => headerLoop fields items1 rest

/-- `Skymodel.parse_formatstring` (sources.py lines 160–201). -/
def parse_formatstring (line : List Char) : Except PyError Items :=
  headerLoop (headerFields line) [] list_of_itemnames

/-! ### Row parsing (`Skymodel.__init__`, sources.py lines 100–158) -/

/-- The local accessor `get_item` (lines 114–118): look the item name up
in `self.items` (`KeyError` when absent — *not* caught here), index the
split row with it (`IndexError` on a short row *is* caught and turned
into `""`), and strip spaces.  When the items dictionary maps the name
to a float — which is the case exactly for
`default_referencefrequency` — Python indexes the row list with a
float, raising an uncaught `TypeError`. -/
def get_item (items : Items) (inputfields : List (List Char))
    (itemname : List Char) : Except PyError (List Char) :=
  match alookup items itemname with
  | none => .error (.keyError itemname)
  | some (ItemVal.idx n) =>
    match inputfields.get? n with
    | some s => .ok (stripChars [' '] s)
    | none => .ok []
  | some (ItemVal.val _) => .error .typeError

/-- Reference-frequency determination for a source row (lines 135–139):
`float(get_item("referencefrequency"))`, falling back on `ValueError`
to `get_item("default_referencefrequency")`.  Since the items
dictionary built by `parse_formatstring` stores
`default_referencefrequency` as a float value, that fallback `get_item`
always raises `TypeError` (a Python list cannot be indexed by a float);
the `.ok` arm of the inner match is unreachable for such dictionaries
and conservatively reports the same `TypeError`. -/
def determine_reference_frequency (items : Items)
    (inputfields : List (List Char)) : Except PyError ℚ :=
  match get_item items inputfields (toL "referencefrequency") with
  | .error e => .error e
  | .ok rfS =>
    match parseFloat? rfS with
    | some q => .ok q
    | none =>
      match get_item items inputfields (toL "default_referencefrequency") with
      | .error e => .error e
      | .ok _ => .error .typeError

/-- `logSI` determination for a source row (lines 142–147):
`get_item("logarithmicsi") == "true"` (an exact, case-sensitive string
comparison), with only a `KeyError` — i.e. the `logarithmicsi` column
being structurally absent from the header — caught and defaulted to
`True`. -/
def determine_logSI (items : Items) (inputfields : List (List Char)) :
    Except PyError Bool :=
  match get_item items inputfields (toL "logarithmicsi") with
  | .ok s => .ok (decide (s = toL "true"))
  | .error (PyError.keyError _) => .ok true
  | .error e => .error e

/-- `float(s)` where a parse failure raises `ValueError`. -/
def floatExc (s : List Char) : Except PyError ℚ :=
  match parseFloat? s with
  | some q => .ok q
  | none => .error (.valueError s)

/-- The message of the `ValueError` raised for a source row whose patch
has not been defined (sources.py lines 125–127). -/
def patchErrMsg (patch_name : List Char) : List Char :=
  toL "Patch " ++ patch_name ++ toL " has not been defined before adding sources."

/-- The body of the row loop of `Skymodel.__init__` (lines 111–158),
after the comment/blank skip and the `split(",")`.  Sub-expressions are
evaluated in Python's order: the patch lookup; for a new patch the `i`
check then `Patch(ra, dec)`; for an existing patch the reference
frequency, `logSI`, then the `add_source` arguments left to right
(`name`, `ra`, `dec`, `float(i)`, `spectralindex`) and finally
`Source.__init__`. -/
def processRow (items : Items) (elements : Catalog)
    (inputfields : List (List Char)) : Except PyError Catalog :=
  match get_item items inputfields (toL "patch") with
  | .error e => .error e
  | .ok patch_name =>
    match alookup elements patch_name with
    | none =>
      match get_item items inputfields (toL "i") with
      | .error e => .error e
      | .ok iF =>
        if iF ≠ [] then .error (.valueError (patchErrMsg patch_name))
        else
          match get_item items inputfields (toL "ra"),
                get_item items inputfields (toL "dec") with
          | .error e, _ => .error e
          | .ok _, .error e => .error e
          | .ok raS, .ok decS =>
            match parse_right_ascension raS with
            | none => .error (.valueError raS)
            | some raq =>
              match parse_declination decS with
              | none => .error (.valueError decS)
              | some decq =>
                .ok (aset elements patch_name ⟨raq, decq, []⟩)
    | some p =>
      match determine_reference_frequency items inputfields with
      | .error e => .error e
      | .ok reference_frequency =>
        match determine_logSI items inputfields with
        | .error e => .error e
        | .ok logSI =>
          match get_item items inputfields (toL "name"),
                get_item items inputfields (toL "ra"),
                get_item items inputfields (toL "dec"),
                get_item items inputfields (toL "i") with
          | .error e, _, _, _ => .error e
          | .ok _, .error e, _, _ => .error e
          | .ok _, .ok _, .error e, _ => .error e
          | .ok _, .ok _, .ok _, .error e => .error e
          | .ok nm, .ok raS, .ok decS, .ok iS =>
            match floatExc iS with
            | .error e => .error e
            | .ok brightness =>
              match get_item items inputfields (toL "spectralindex") with
              | .error e => .error e
              | .ok si =>
                match mkSource raS decS brightness reference_frequency si logSI with
                | .error e => .error e
                | .ok src =>
                  .ok (aset elements patch_name
                    { p with elements := aset p.elements nm src })

/-- One iteration of the line loop (lines 105–158): skip a line that
starts with `#` or is empty after removing all commas, otherwise split
it on `,` and process the row. -/
def processLine (items : Items) (elements : Catalog) (line : List Char) :
    Except PyError Catalog :=
  if line.head? = some '#' ∨ line.filter (fun c => c != ',') = [] then
    .ok elements
  else processRow items elements (splitOnChar ',' line)

/-- The line loop over the remaining lines of the file. -/
def runLines (items : Items) : Catalog → List (List Char) → Except PyError Catalog
  | cat, [] => .ok cat
  | cat, line :: rest =>
    match processLine items cat line with
    | .error e => .error e
    | .ok cat1 => runLines items cat1 rest

/-- `Skymodel.__init__` on the list of lines of the file (trailing
newlines removed): parse the header from the first line (an empty file
behaves like an empty header line, as `f.readline()` returns `""`),
then fold the row loop over the remaining lines, starting from an empty
catalog.  Any exception aborts the whole construction. -/
def skymodel (lines : List (List Char)) : Except PyError Catalog :=
  match parse_formatstring (lines.headD []) with
  | .error e => .error e
  | .ok items => runLines items [] lines.tail

/-! ### Concrete exemplar catalogs

A header in the format of §6 of the spec (the inline default is written
without the surrounding quotes of the spec's example — the digit filter
of `parse_formatstring` removes quotes anyway, so the extracted default
is the same), one patch-definition row, and several source-row
variants. -/

/-- Standard header with all eight canonical columns. -/
def hdrStdL : List Char :=
  toL "Name,Patch,Ra,Dec,I,ReferenceFrequency=60e6,SpectralIndex,LogarithmicSI"

/-- Standard header without the optional `SpectralIndex` column. -/
def hdrNoSpecL : List Char :=
  toL "Name,Patch,Ra,Dec,I,ReferenceFrequency=60e6,LogarithmicSI"

/-- Standard header without the optional `LogarithmicSI` column. -/
def hdrNoLogL : List Char :=
  toL "Name,Patch,Ra,Dec,I,ReferenceFrequency=60e6,SpectralIndex"

/-- A header whose six required columns are all present (each canonical
name has a cell containing it as a substring) but whose
`ReferenceFrequency` cell carries no inline `=<number>` default. -/
def hdrNoEqL : List Char := toL "Name,Patch,Ra,Dec,I,ReferenceFrequency"

/-- The items dictionary built from `hdrNoSpecL`. -/
def itemsNoSpec : Items :=
  [(toL "name", ItemVal.idx 0), (toL "patch", ItemVal.idx 1),
   (toL "ra", ItemVal.idx 2), (toL "dec", ItemVal.idx 3),
   (toL "i", ItemVal.idx 4), (toL "referencefrequency", ItemVal.idx 5),
   (toL "default_referencefrequency", ItemVal.val 60000000),
   (toL "logarithmicsi", ItemVal.idx 6)]

/-- A patch-definition row: empty `I` field, patch `P1` at
`10:00:00` / `+40.00.00` (= 150° / 40°). -/
def patchRowL : List Char := toL ",P1,10:00:00,+40.00.00,,,,"

/-- A source row with a blank `ReferenceFrequency` field. -/
def srcRowBlankRefL : List Char := toL "S1,P1,10:30:00,+41.30.00,2.5,,[0.5],true"

/-- A source row whose spectral-index list has the non-numeric entry `a`. -/
def srcRowBadSIL : List Char := toL "S1,P1,10:30:00,+41.30.00,2.5,1.5e8,[a],true"

/-- A source row whose `LogarithmicSI` field is the capitalised `True`. -/
def srcRowTrueCapL : List Char := toL "S1,P1,10:30:00,+41.30.00,2.5,1.5e8,[0.5],True"

/-- A source row for the header without `SpectralIndex` (7 columns). -/
def srcRowNoSpecL : List Char := toL "S1,P1,10:30:00,+41.30.00,2.5,1.5e8,true"

/-- A source row for the header without `LogarithmicSI` (7 columns). -/
def srcRowNoLogL : List Char := toL "S1,P1,10:30:00,+41.30.00,2.5,1.5e8,[0.5]"

/-- The items dictionary `parse_formatstring` builds from `hdrStdL`. -/
def itemsStd : Items :=
  [(toL "name", ItemVal.idx 0), (toL "patch", ItemVal.idx 1),
   (toL "ra", ItemVal.idx 2), (toL "dec", ItemVal.idx 3),
   (toL "i", ItemVal.idx 4), (toL "referencefrequency", ItemVal.idx 5),
   (toL "default_referencefrequency", ItemVal.val 60000000),
   (toL "spectralindex", ItemVal.idx 6), (toL "logarithmicsi", ItemVal.idx 7)]

/-- The items dictionary built from `hdrNoLogL`. -/
def itemsNoLog : Items :=
  [(toL "name", ItemVal.idx 0), (toL "patch", ItemVal.idx 1),
   (toL "ra", ItemVal.idx 2), (toL "dec", ItemVal.idx 3),
   (toL "i", ItemVal.idx 4), (toL "referencefrequency", ItemVal.idx 5),
   (toL "default_referencefrequency", ItemVal.val 60000000),
   (toL "spectralindex", ItemVal.idx 6)]

/-- The patch `P1` as first created (no sources yet). -/
def patchP1 : PatchR := ⟨150, 40, []⟩

/-- A one-patch catalog holding only the fresh `P1`. -/
def catP1 : Catalog := [(toL "P1", patchP1)]

/-- The catalog built from `hdrStdL, patchRowL, srcRowBadSIL`: the
source is stored with the raw unparsed text `[a]` as spectral index. -/
def catBadSI : Catalog :=
  [(toL "P1", ⟨150, 40,
    [(toL "S1", ⟨315/2, 83/2, 5/2, 150000000, toL "[a]", true⟩)]⟩)]

/-- The catalog built from `hdrStdL, patchRowL, srcRowTrueCapL`: the
capitalised `True` field makes `logSI` *false*. -/
def catTrueCap : Catalog :=
  [(toL "P1", ⟨150, 40,
    [(toL "S1", ⟨315/2, 83/2, 5/2, 150000000, toL "[0.5]", false⟩)]⟩)]

/-- The catalog built from `hdrNoLogL, patchRowL, srcRowNoLogL`: with
the `LogarithmicSI` column structurally absent, `logSI` defaults to
true. -/
def catNoLog : Catalog :=
  [(toL "P1", ⟨150, 40,
    [(toL "S1", ⟨315/2, 83/2, 5/2, 150000000, toL "[0.5]", true⟩)]⟩)]

/-! ### Helper lemmas -/

theorem dropWhile_all {p : Char → Bool} :
    ∀ l : List Char, (∀ c ∈ l, p c = true) → l.dropWhile p = [] := by
  intro l h
  induction l with
  | nil => rfl
  | cons a r ih =>
    simp only [List.dropWhile, h a (by simp)]
    exact ih fun c hc => h c (by simp [hc])

theorem dropWhile_no {p : Char → Bool} :
    ∀ l : List Char, (∀ c ∈ l, p c = false) → l.dropWhile p = l := by
  intro l h
  cases l with
  | nil => rfl
  | cons a r => simp only [List.dropWhile, h a (by simp)]

/-- `trimWs` of an all-whitespace string is empty. -/
theorem trimWs_all_ws {l : List Char} (h : ∀ c ∈ l, c.isWhitespace = true) :
    trimWs l = [] := by
  unfold trimWs
  rw [dropWhile_all l h]
  rfl

/-- `float(...)` fails on an all-whitespace string. -/
theorem parseFloat?_all_ws {l : List Char} (h : ∀ c ∈ l, c.isWhitespace = true) :
    parseFloat? l = none := by
  unfold parseFloat?
  rw [trimWs_all_ws h]

/-- `strip` leaves a string alone when none of its characters are in the
strip set. -/
theorem stripChars_no_mem {cs l : List Char}
    (h : ∀ c ∈ l, cs.contains c = false) : stripChars cs l = l := by
  unfold stripChars
  rw [dropWhile_no l h, dropWhile_no l.reverse (fun c hc => h c (List.mem_reverse.mp hc)),
    List.reverse_reverse]

/-- `split(sep)` does not split a string containing no separator. -/
theorem splitOnChar_no_sep {sep : Char} :
    ∀ l : List Char, (∀ c ∈ l, c ≠ sep) → splitOnChar sep l = [l] := by
  intro l h
  induction l with
  | nil => rfl
  | cons a r ih =>
    have ha : ¬(a = sep) := h a (by simp)
    simp only [splitOnChar, if_neg ha, ih fun c hc => h c (by simp [hc])]

/-- A whitespace character is not a bracket, comma or separator used in
the coefficient pipeline. -/
theorem ws_char_facts {c : Char} (h : c.isWhitespace = true) :
    (['[', ']'] : List Char).contains c = false ∧ c ≠ ',' := by
  have hd : ((c = ' ' ∨ c = '\t') ∨ c = '\r') ∨ c = '\n' := by
    simpa [Char.isWhitespace] using h
  rcases hd with ((rfl | rfl) | rfl) | rfl <;> exact ⟨by decide, by decide⟩

/-- The coefficient pipeline fails on an empty or all-whitespace
spectral-index text: `strip("[]")` leaves it alone, `split(",")` keeps
it whole, and `float(...)` fails on it. -/
theorem parseCoeffList_all_ws {s : List Char}
    (h : ∀ c ∈ s, c.isWhitespace = true) : parseCoeffList s = none := by
  unfold parseCoeffList
  rw [stripChars_no_mem (fun c hc => (ws_char_facts (h c hc)).1),
    splitOnChar_no_sep s (fun c hc => (ws_char_facts (h c hc)).2)]
  simp [floatList?, parseFloat?_all_ws h]

/-- If some item of the worklist always makes `headerStep` fail, the
header loop fails (possibly on an earlier item). -/
theorem headerLoop_error (fields : List (List Char)) (b : List Char)
    (hb : ∀ acc : Items, ∃ e, headerStep fields acc b = Except.error e) :
    ∀ (l : List (List Char)) (acc : Items), b ∈ l →
      ∃ e, headerLoop fields acc l = Except.error e := by
  intro l
  induction l with
  | nil => intro acc h; cases h
  | cons x r ih =>
    intro acc hmem
    by_cases hx : x = b
    · subst hx
      obtain ⟨e, he⟩ := hb acc
      exact ⟨e, by simp [headerLoop, he]⟩
    · have hbr : b ∈ r := by
        cases hmem with
        | head => exact absurd rfl hx
        | tail _ h => exact h
      cases hstep : headerStep fields acc x with
      | error e => exact ⟨e, by simp [headerLoop, hstep]⟩
      | ok acc1 =>
        obtain ⟨e, he⟩ := ih acc1 hbr
        exact ⟨e, by simp [headerLoop, hstep, he]⟩

section ClaimTheorems

attribute [local semireducible] Rat.mul Rat.add Rat.sub Rat.inv Rat.ofScientific

/-- C1: the claim says a blank or non-numeric `referencefrequency` field
makes the parse succeed with the header's default reference frequency.
The code instead stores the parsed default as the *value* of
`items["default_referencefrequency"]`, so the fallback
`get_item("default_referencefrequency")` indexes the split row with a
float and raises an uncaught `TypeError`: on a catalog whose source row
has a blank `referencefrequency` field, `Skymodel.__init__` crashes
even though the header's default (`60e6`) was correctly extracted. -/
theorem c1_default_reference_frequency_code_bug :
    parse_formatstring hdrStdL = Except.ok itemsStd
    ∧ alookup itemsStd (toL "default_referencefrequency")
        = some (ItemVal.val 60000000)
    ∧ skymodel [hdrStdL, patchRowL, srcRowBlankRefL]
        = Except.error PyError.typeError :=
  ⟨by decide, by decide, by decide⟩

/-- C2 counterexample: a `Source` is happily constructed with empty
spectral-index text, but its brightness function is not
frequency-independent with value equal to the reference brightness —
evaluating either model fails (`float("")` raises), i.e. returns `none`
rather than `some` of the reference brightness. -/
theorem c2_cex :
    mkSource (toL "10:00:00") (toL "+40.00.00") 1 2 (toL "") true
      = Except.ok ⟨150, 40, 1, 2, [], true⟩
    ∧ logarithmic_spectral_index_brightness 1 2 (toL "") 3 = none
    ∧ linear_spectral_index_brightness 1 2 (toL "") 3 = none := by
  have h : parseCoeffList (toL "") = none := by decide
  exact ⟨by decide, by simp [logarithmic_spectral_index_brightness, h],
    by simp [linear_spectral_index_brightness, h]⟩

/-- C2 (amended): for a Source whose spectral-index text is empty or
whitespace-only, evaluating the brightness function fails for *every*
frequency and under *both* models — `strip("[]")` and `split(",")`
leave the text as a single chunk on which `float` raises — instead of
degenerating to the frequency-independent reference brightness. -/
theorem c2_empty_spectral_index (b rf : ℚ) (f : ℝ) (s : List Char)
    (hws : ∀ c ∈ s, c.isWhitespace = true) :
    logarithmic_spectral_index_brightness b rf s f = none
    ∧ linear_spectral_index_brightness b rf s f = none := by
  have h := parseCoeffList_all_ws hws
  exact ⟨by simp [logarithmic_spectral_index_brightness, h],
    by simp [linear_spectral_index_brightness, h]⟩

/-- C2 witness: the amended theorem applied to the whitespace-only
text `" "` at brightness 1, reference frequency 2 and frequency 3. -/
theorem c2_witness :
    logarithmic_spectral_index_brightness 1 2 (toL " ") 3 = none
    ∧ linear_spectral_index_brightness 1 2 (toL " ") 3 = none :=
  ⟨(c2_empty_spectral_index 1 2 3 (toL " ") (by decide)).1,
   (c2_empty_spectral_index 1 2 3 (toL " ") (by decide)).2⟩

/-- C5 counterexample: a catalog whose source row carries the
non-numeric spectral-index entry `a` is parsed *successfully* — the
claim says catalog construction itself must raise — and the error only
appears when the stored source's brightness function is evaluated. -/
theorem c5_cex :
    skymodel [hdrStdL, patchRowL, srcRowBadSIL] = Except.ok catBadSI
    ∧ logarithmic_spectral_index_brightness (5/2) 150000000 (toL "[a]")
        150000000 = none := by
  have h : parseCoeffList (toL "[a]") = none := by decide
  exact ⟨by decide, by simp [logarithmic_spectral_index_brightness, h]⟩

/-- C5 (amended): a malformed spectral-index coefficient list does not
abort catalog construction.  `Source.__init__` stores the raw
coefficient text without inspecting it (only the coordinate strings are
parsed eagerly), and the `ValueError` surfaces only when the brightness
function is later evaluated, which then fails at every frequency under
both models. -/
theorem c5_deferred_spectral_index_error (raS decS : List Char) (b rf : ℚ)
    (si : List Char) (lg : Bool) (raq decq : ℚ)
    (hra : parse_right_ascension raS = some raq)
    (hdec : parse_declination decS = some decq) :
    mkSource raS decS b rf si lg = Except.ok ⟨raq, decq, b, rf, si, lg⟩
    ∧ (parseCoeffList si = none →
        ∀ f : ℝ, logarithmic_spectral_index_brightness b rf si f = none
          ∧ linear_spectral_index_brightness b rf si f = none) := by
  refine ⟨by simp [mkSource, hra, hdec], fun hsi f => ?_⟩
  exact ⟨by simp [logarithmic_spectral_index_brightness, hsi],
    by simp [linear_spectral_index_brightness, hsi]⟩

/-- C5 witness: the amended theorem applied to the source row of
`srcRowBadSIL` (coefficient text `[a]`), evaluated at frequency 1. -/
theorem c5_witness :
    mkSource (toL "10:30:00") (toL "+41.30.00") (5/2) 150000000 (toL "[a]") true
      = Except.ok ⟨315/2, 83/2, 5/2, 150000000, toL "[a]", true⟩
    ∧ logarithmic_spectral_index_brightness (5/2) 150000000 (toL "[a]") 1 = none
    ∧ linear_spectral_index_brightness (5/2) 150000000 (toL "[a]") 1 = none :=
  ⟨(c5_deferred_spectral_index_error (toL "10:30:00") (toL "+41.30.00") (5/2)
      150000000 (toL "[a]") true (315/2) (83/2) (by decide) (by decide)).1,
   ((c5_deferred_spectral_index_error (toL "10:30:00") (toL "+41.30.00") (5/2)
      150000000 (toL "[a]") true (315/2) (83/2) (by decide) (by decide)).2
      (by decide) 1).1,
   ((c5_deferred_spectral_index_error (toL "10:30:00") (toL "+41.30.00") (5/2)
      150000000 (toL "[a]") true (315/2) (83/2) (by decide) (by decide)).2
      (by decide) 1).2⟩

/-- C6 counterexample: a source row whose `logarithmicsi` field is
`True` — which case-insensitively equals `"true"` — produces a source
with `logSI = false`, because the code compares the row field (whose
capitalisation is untouched; only the *header* is lowercased) with the
exact string `"true"`. -/
theorem c6_cex :
    skymodel [hdrStdL, patchRowL, srcRowTrueCapL] = Except.ok catTrueCap
    ∧ (toL "True").map Char.toLower = toL "true" :=
  ⟨by decide, by decide⟩

/-- C6 (amended): `logSI` is true iff the row's `logarithmicsi` field
(space-stripped, capitalisation preserved) is *exactly* the string
`"true"` — a case-sensitive comparison, so `True` or `TRUE` yield
false; when the `logarithmicsi` column is structurally absent from the
items dictionary, the `KeyError` of the lookup is caught and `logSI`
defaults to true. -/
theorem c6_logsi_exact_match (items : Items) (fields : List (List Char)) :
    (∀ s, get_item items fields (toL "logarithmicsi") = Except.ok s →
        determine_logSI items fields = Except.ok (decide (s = toL "true")))
    ∧ (alookup items (toL "logarithmicsi") = none →
        determine_logSI items fields = Except.ok true) := by
  constructor
  · intro s hs
    simp [determine_logSI, hs]
  · intro h
    simp [determine_logSI, get_item, h]

/-- C6 witness: the amended theorem applied to the `True`-capitalised
source row under the full header, and to a row under the header lacking
the `LogarithmicSI` column. -/
theorem c6_witness :
    determine_logSI itemsStd (splitOnChar ',' srcRowTrueCapL)
      = Except.ok (decide (toL "True" = toL "true"))
    ∧ determine_logSI itemsNoLog (splitOnChar ',' srcRowNoLogL)
      = Except.ok true :=
  ⟨(c6_logsi_exact_match itemsStd (splitOnChar ',' srcRowTrueCapL)).1
      (toL "True") (by decide),
   (c6_logsi_exact_match itemsNoLog (splitOnChar ',' srcRowNoLogL)).2
      (by decide)⟩

/-- C7 counterexample: the claim says a zero degree field is treated as
non-negative, so `"-00.30.00"` should parse to `+0.5`; the code
multiplies by `np.sign(deg)`, and `np.sign(0) = 0`, so the result is
`0`, not `1/2`. -/
theorem c7_cex :
    parse_declination (toL "-00.30.00") = some 0
    ∧ some (0 : ℚ) ≠ some (1/2 : ℚ) :=
  ⟨by decide, by decide⟩

/-- C7 (amended): for every well-formed declination string the result is
`|deg| + min/60 + sec/3600` multiplied by `sign(deg)` where `sign` is
the three-valued sign function (`sign 0 = 0`): in particular every
input with degree field `0` parses to exactly `0`, regardless of its
minutes and seconds. -/
theorem c7_declination_sign (l f0 f1 : List Char) (rest : List (List Char))
    (deg mn : ℤ) (sc : ℚ)
    (hsplit : splitOnChar '.' (stripChars ['+'] (l.filter (fun c => c != ' ')))
        = f0 :: f1 :: rest)
    (h0 : parseInt? f0 = some deg) (h1 : parseInt? f1 = some mn)
    (h2 : parseFloat? (joinChar '.' rest) = some sc) :
    parse_declination l
      = some ((Int.sign deg : ℚ) * ((deg.natAbs : ℚ) + (mn : ℚ) / 60 + sc / 3600))
    ∧ (deg = 0 → parse_declination l = some 0) := by
  have hmain : parse_declination l
      = some ((Int.sign deg : ℚ) * ((deg.natAbs : ℚ) + (mn : ℚ) / 60 + sc / 3600)) := by
    unfold parse_declination
    rw [hsplit]
    simp [h0, h1, h2]
  refine ⟨hmain, fun hdeg => ?_⟩
  rw [hmain, hdeg]
  simp

/-- C7 witness: the amended theorem applied to `"+41.30.00"`
(degree field 41, minutes 30, seconds 0). -/
theorem c7_witness :
    parse_declination (toL "+41.30.00")
      = some ((Int.sign (41 : ℤ) : ℚ) *
          (((41 : ℤ).natAbs : ℚ) + ((30 : ℤ) : ℚ) / 60 + (0 : ℚ) / 3600)) :=
  (c7_declination_sign (toL "+41.30.00") (toL "41") (toL "30") [toL "00"]
    41 30 0 (by decide) (by decide) (by decide) (by decide)).1

/-- C8: for the logarithmic model, any reference brightness, nonzero
reference frequency and well-formed (parsable) coefficient list,
evaluating the brightness at the reference frequency itself gives back
exactly the reference brightness: `x = 1`, so `x ** exponent = 1`
whatever the exponent evaluates to. -/
theorem c8_logarithmic_at_reference (b rf : ℚ) (si : List Char) (cs : List ℚ)
    (hcs : parseCoeffList si = some cs) (hrf : rf ≠ 0) :
    logarithmic_spectral_index_brightness b rf si ((rf : ℚ) : ℝ)
      = some ((b : ℚ) : ℝ) := by
  have hx : ((rf : ℚ) : ℝ) / ((rf : ℚ) : ℝ) = 1 := div_self (by exact_mod_cast hrf)
  simp only [logarithmic_spectral_index_brightness, hcs]
  rw [hx, Real.one_rpow, mul_one]

/-- C8 witness: the theorem applied to brightness 2, reference
frequency 100 and the coefficient text `[0.5,-0.2]`. -/
theorem c8_witness :
    parseCoeffList (toL "[0.5,-0.2]") = some [1/2, -1/5]
    ∧ logarithmic_spectral_index_brightness 2 100 (toL "[0.5,-0.2]")
        ((100 : ℚ) : ℝ) = some ((2 : ℚ) : ℝ) :=
  ⟨by decide,
   c8_logarithmic_at_reference 2 100 (toL "[0.5,-0.2]") [1/2, -1/5]
     (by decide) (by decide)⟩

/-- C9 counterexample: for the linear model with coefficients
`[2.0,3.0]`, reference frequency 100 and frequency 150, the result is
*not* 3.5 for every reference brightness: with reference brightness 1
the code returns `1 + (2.0 + 3.0 * 0.5) = 4.5`. -/
theorem c9_cex :
    linear_spectral_index_brightness 1 100 (toL "[2.0,3.0]") 150
      = some (4.5 : ℝ)
    ∧ (4.5 : ℝ) ≠ (3.5 : ℝ) := by
  have h : parseCoeffList (toL "[2.0,3.0]") = some [2, 3] := by decide
  constructor
  · simp only [linear_spectral_index_brightness, h, powSeries]
    norm_num
  · norm_num

/-- C9 (amended): for the linear model with coefficient list
`[2.0,3.0]`, reference frequency 100 and frequency 150 — so
`x = 150/100 - 1 = 0.5` — the result is
`reference_brightness + (2.0 * 0.5^0 + 3.0 * 0.5^1)
= reference_brightness + 3.5`, for every reference brightness; the
spec's stated value `3.5` is obtained exactly when the reference
brightness is `0`. -/
theorem c9_linear_example (b : ℚ) :
    linear_spectral_index_brightness b 100 (toL "[2.0,3.0]") 150
      = some ((b : ℝ) + 3.5) := by
  have h : parseCoeffList (toL "[2.0,3.0]") = some [2, 3] := by decide
  simp only [linear_spectral_index_brightness, h, powSeries]
  norm_num

/-- C3 counterexample, refuting both false parts of the claim at
concrete inputs.  First, the "only if" direction of the claimed
equivalence: in the header `hdrNoEqL` every one of the six required
canonical fields has a matching (substring-containing) column, yet
header parsing still fails — the `ReferenceFrequency` cell carries no
`=`, so the two-way unpacking of `matching_string.split("=")` raises a
`ValueError`.  Second, for a catalog whose header merely lacks the
optional `SpectralIndex` column, the header itself parses, but the
first source row then fails with the uncaught `KeyError` that
`get_item("spectralindex")` raises — so source rows of such a catalog
do *not* parse successfully. -/
theorem c3_cex :
    requiredItemnames.all
        (fun req => (headerFields hdrNoEqL).any (fun f => hasSub req f)) = true
    ∧ parse_formatstring hdrNoEqL
        = Except.error (PyError.valueError (toL "referencefrequency"))
    ∧ skymodel [hdrNoSpecL, patchRowL, srcRowNoSpecL]
        = Except.error (PyError.keyError (toL "spectralindex")) :=
  ⟨by decide, by decide, by decide⟩

/-- C3 (amended): header parsing fails whenever one of the six required
canonical fields has no header cell containing it as a substring — but
not *only* then: a header whose required columns are all matched still
fails when the matched `referencefrequency` cell has no inline
`=<number>` default (the `ValueError` of the two-way `split("=")`
unpacking), so the claimed "if and only if" holds in the "if" direction
only.  Any header failure aborts the whole parse before any data row is
touched; absence of `spectralindex` or `logarithmicsi` is tolerated by
the header phase.  However the toleration only extends to read time for
`logarithmicsi` (whose `KeyError` is caught per row): a catalog lacking
the `spectralindex` column parses its header but fails on the first
source row with an uncaught `KeyError`, while a catalog lacking only
`logarithmicsi` parses completely. -/
theorem c3_header_required_fields :
    (∀ (line req : List Char), req ∈ requiredItemnames →
        (∀ f ∈ headerFields line, hasSub req f = false) →
        ∃ e, parse_formatstring line = Except.error e)
    ∧ (∀ (line : List Char) (rest : List (List Char)) (e : PyError),
        parse_formatstring line = Except.error e →
        skymodel (line :: rest) = Except.error e)
    ∧ parse_formatstring hdrNoEqL
        = Except.error (PyError.valueError (toL "referencefrequency"))
    ∧ parse_formatstring hdrNoSpecL = Except.ok itemsNoSpec
    ∧ skymodel [hdrNoSpecL, patchRowL, srcRowNoSpecL]
        = Except.error (PyError.keyError (toL "spectralindex"))
    ∧ skymodel [hdrNoLogL, patchRowL, srcRowNoLogL] = Except.ok catNoLog := by
  refine ⟨?_, ?_, by decide, by decide, by decide, by decide⟩
  · intro line req hreq hnom
    have hmem : req ∈ list_of_itemnames := by
      simp only [requiredItemnames, List.mem_cons, List.not_mem_nil, or_false] at hreq
      rcases hreq with rfl | rfl | rfl | rfl | rfl | rfl <;> decide
    have hstep : ∀ acc : Items,
        ∃ e, headerStep (headerFields line) acc req = Except.error e := by
      intro acc
      have hfil : (headerFields line).filter (fun f => hasSub req f) = [] := by
        rw [List.filter_eq_nil_iff]
        intro f hf
        simp [hnom f hf]
      have hopt : ¬(req = toL "spectralindex" ∨ req = toL "logarithmicsi") := by
        simp only [requiredItemnames, List.mem_cons, List.not_mem_nil, or_false] at hreq
        rcases hreq with rfl | rfl | rfl | rfl | rfl | rfl <;> decide
      exact ⟨.keyError req, by simp [headerStep, hfil, hopt]⟩
    simpa [parse_formatstring] using
      headerLoop_error (headerFields line) req hstep list_of_itemnames [] hmem
  · intro line rest e he
    simp [skymodel, he]

/-- C3 witness: part one of the amended theorem applied to a header
missing the required `Dec` column. -/
theorem c3_witness :
    ∃ e, parse_formatstring
        (toL "Name,Patch,Ra,I,ReferenceFrequency=60e6,SpectralIndex,LogarithmicSI")
      = Except.error e :=
  c3_header_required_fields.1 _ (toL "dec") (by decide) (by decide)

/-- C4: for a data row naming a patch that is not in the catalog yet:
if the row's `i` field is non-empty, the parse aborts with the
`ValueError` whose message names the patch, and no catalog results; if
the `i` field is empty, a new Patch parsed from the row's `ra` and
`dec` fields is added under the patch name. -/
theorem c4_new_patch (items : Items) (elements : Catalog)
    (fields : List (List Char)) (pn iF : List Char)
    (hpn : get_item items fields (toL "patch") = Except.ok pn)
    (hnew : alookup elements pn = none)
    (hi : get_item items fields (toL "i") = Except.ok iF) :
    (iF ≠ [] →
      processRow items elements fields
        = Except.error (PyError.valueError (patchErrMsg pn)))
    ∧ (iF = [] → ∀ (raS decS : List Char) (raq decq : ℚ),
        get_item items fields (toL "ra") = Except.ok raS →
        get_item items fields (toL "dec") = Except.ok decS →
        parse_right_ascension raS = some raq →
        parse_declination decS = some decq →
        processRow items elements fields
          = Except.ok (aset elements pn ⟨raq, decq, []⟩)) := by
  constructor
  · intro hne
    simp [processRow, hpn, hnew, hi, hne]
  · rintro rfl raS decS raq decq hra hdec hpra hpdec
    simp [processRow, hpn, hnew, hi, hra, hdec, hpra, hpdec]

/-- C4 witness: the theorem applied to the patch-definition row
(empty `i`: patch `P1` created at 150°/40°) and to the same source row
presented before any patch definition (non-empty `i`: `ValueError`
naming `P1`). -/
theorem c4_witness :
    processRow itemsStd [] (splitOnChar ',' patchRowL)
      = Except.ok (aset [] (toL "P1") ⟨150, 40, []⟩)
    ∧ processRow itemsStd [] (splitOnChar ',' srcRowBadSIL)
      = Except.error (PyError.valueError (patchErrMsg (toL "P1"))) :=
  ⟨(c4_new_patch itemsStd [] (splitOnChar ',' patchRowL) (toL "P1") []
      (by decide) rfl (by decide)).2 rfl (toL "10:00:00") (toL "+40.00.00")
      150 40 (by decide) (by decide) (by decide) (by decide),
   (c4_new_patch itemsStd [] (splitOnChar ',' srcRowBadSIL) (toL "P1")
      (toL "2.5") (by decide) rfl (by decide)).1 (by decide)⟩

/-- C10: a data row that names an already-present patch but has an
empty `i` (brightness) field — e.g. a duplicated patch-definition
line — never yields a catalog: the row is neither skipped nor used to
redefine the patch; processing it always raises (either `float("")`
fails on the brightness, or — when the `referencefrequency` field is
also blank — the default-reference-frequency fallback raises its
`TypeError` first). -/
theorem c10_duplicate_patch_row (items : Items) (elements : Catalog)
    (fields : List (List Char)) (pn : List Char) (p : PatchR)
    (hpn : get_item items fields (toL "patch") = Except.ok pn)
    (hex : alookup elements pn = some p)
    (hi : get_item items fields (toL "i") = Except.ok []) :
    ∀ c : Catalog, processRow items elements fields ≠ Except.ok c := by
  intro c h
  unfold processRow at h
  simp only [hpn, hex] at h
  cases hrf : determine_reference_frequency items fields with
  | error e => simp [hrf] at h
  | ok q =>
    cases hlog : determine_logSI items fields with
    | error e => simp [hrf, hlog] at h
    | ok lg =>
      cases hnm : get_item items fields (toL "name") with
      | error e => simp [hrf, hlog, hnm] at h
      | ok nm =>
        cases hraS : get_item items fields (toL "ra") with
        | error e => simp [hrf, hlog, hnm, hraS] at h
        | ok raS =>
          cases hdecS : get_item items fields (toL "dec") with
          | error e => simp [hrf, hlog, hnm, hraS, hdecS] at h
          | ok decS =>
            have hfe : floatExc [] = Except.error (PyError.valueError []) := rfl
            simp [hrf, hlog, hnm, hraS, hdecS, hi, hfe] at h

/-- C10 witness: the theorem applied to the patch-definition row
repeated after patch `P1` already exists; in particular the duplicate
row does not leave the catalog unchanged (it is not skipped). -/
theorem c10_witness :
    processRow itemsStd catP1 (splitOnChar ',' patchRowL) ≠ Except.ok catP1 :=
  c10_duplicate_patch_row itemsStd catP1 (splitOnChar ',' patchRowL)
    (toL "P1") patchP1 (by decide) (by decide) (by decide) catP1

end ClaimTheorems

end Shimmerr
